import Mathlib

/-!
Verification of `reports_service_local.py` (report-generation microservice).

Text is modelled as `List Char`.  The external collaborators (generative
backend, pdflatex toolchain, S3 uploads, database clock) are modelled as
explicit oracle parameters, so every function of the service becomes a pure,
executable Lean function mirroring the Python control flow line by line.
-/

set_option maxRecDepth 4000

/-- Python `str.strip`/`str.isspace` whitespace test: the full CPython set
for `str` (0x09-0x0d, 0x1c-0x1f, space, 0x85, 0xa0, and the Unicode space
separators 0x1680, 0x2000-0x200a, 0x2028, 0x2029, 0x202f, 0x205f, 0x3000). -/
def pySpace (c : Char) : Bool :=
  let n := c.toNat
  (decide (0x09 ≤ n) && decide (n ≤ 0x0d))
    || (decide (0x1c ≤ n) && decide (n ≤ 0x1f))
    || n == 0x20 || n == 0x85 || n == 0xa0 || n == 0x1680
    || (decide (0x2000 ≤ n) && decide (n ≤ 0x200a))
    || n == 0x2028 || n == 0x2029 || n == 0x202f || n == 0x205f || n == 0x3000

/-- Python `str.lstrip()`. -/
def pyLStrip (s : List Char) : List Char := s.dropWhile pySpace

/-- Python `str.strip()`. -/
def pyStrip (s : List Char) : List Char :=
  ((s.dropWhile pySpace).reverse.dropWhile pySpace).reverse

/-- Predicate `beginsWith pat s`, Python `s.startswith(pat)`. -/
def beginsWith : List Char → List Char → Bool
  | [], _ => true
  | _ :: _, [] => false
  | x :: p, y :: s => x == y && beginsWith p s

/-- The escaped replacement `\c` used for most special characters. -/
def esc (c : Char) : List Char := ['\\', c]

/-- Replacement text for `~` in `sanitize_latex`: the source's template is
`r"\textasciitilde{}"`, and `re.sub` replacement-template processing turns
`\t` into a TAB character, so the program inserts TAB + `extasciitilde{}`. -/
def tildeRepl : List Char := "\x09extasciitilde\x7b\x7d".toList

/-- Replacement text for `^` in `sanitize_latex`: the source's template is
`r"\textasciicircum{}"`, and `re.sub` turns its `\t` into a TAB, so the
program inserts TAB + `extasciicircum{}`. -/
def caretRepl : List Char := "\x09extasciicircum\x7b\x7d".toList

/-- One pass of `re.sub(rf"(?<!\\){char}", escaped, text)`: every occurrence of
`c` whose preceding character in the input is not a backslash is replaced by
`repl`.  `prev` is the character preceding the current position in the input
(`none` at the start of the string); the lookbehind inspects the input, not
the partially built output, which is exactly how `re.sub` scans. -/
def escSub (c : Char) (repl : List Char) : Option Char → List Char → List Char
  | _, [] => []
  | prev, x :: xs =>
    if x = c ∧ prev ≠ some '\\' then repl ++ escSub c repl (some x) xs
    else x :: escSub c repl (some x) xs

/-- The ordered replacement table of `sanitize_latex` (Python dict order). -/
def replacements : List (Char × List Char) :=
  [('&', esc '&'), ('%', esc '%'), ('$', esc '$'), ('#', esc '#'), ('_', esc '_'),
   ('\x7b', esc '\x7b'), ('\x7d', esc '\x7d'), ('~', tildeRepl), ('^', caretRepl)]

/-- Function `sanitize_latex`: sequentially applies the nine `re.sub` passes. -/
def sanitize_latex (t : List Char) : List Char :=
  replacements.foldl (fun s p => escSub p.1 p.2 none s) t

/-- The first seven passes of `sanitize_latex` (the `\c`-style escapes). -/
def sanitize7 (t : List Char) : List Char :=
  escSub '\x7d' (esc '\x7d') none
    (escSub '\x7b' (esc '\x7b') none
      (escSub '_' (esc '_') none
        (escSub '#' (esc '#') none
          (escSub '$' (esc '$') none
            (escSub '%' (esc '%') none
              (escSub '&' (esc '&') none t))))))

/-- The code-fence opener matched by `^```latex` (MULTILINE). -/
def fenceLatex : List Char := "```latex".toList

/-- The code-fence closer matched by ```` ```$ ```` (MULTILINE). -/
def fenceBare : List Char := "```".toList

/-- Does the position start a line end, i.e. would `$` match here under
`re.MULTILINE` (end of string or just before a newline)? -/
def atLineEnd (s : List Char) : Bool :=
  match s with
  | [] => true
  | c :: _ => c == '\n'

/-- Scanner for `re.sub(r"^```latex|```$", "", text, flags=re.MULTILINE)`.
`skip` counts characters of a current match still to be consumed; `atStart`
records whether the position is at a line start (`^`). -/
def stripFencesAux : Nat → Bool → List Char → List Char
  | _ + 1, _, [] => []
  | skip + 1, _, _ :: rest => stripFencesAux skip false rest
  | 0, _, [] => []
  | 0, atStart, c :: rest =>
    if atStart && beginsWith fenceLatex (c :: rest) then
      stripFencesAux 7 false rest
    else if beginsWith fenceBare (c :: rest) && atLineEnd (rest.drop 2) then
      stripFencesAux 2 false rest
    else c :: stripFencesAux 0 (c == '\n') rest

/-- The fence-stripping substitution applied to the backend's raw text. -/
def stripFences (s : List Char) : List Char := stripFencesAux 0 true s

/-- Request/record parameter payload: keys to (string-coerced) values. -/
def Params : Type := List (List Char × List Char)

instance : DecidableEq Params := by unfold Params; infer_instance

/-- Python `params.get(key, default)` on the payload (first matching key). -/
def paramsGet : Params → List Char → Option (List Char)
  | [], _ => none
  | (k, v) :: rest, key => if k = key then some v else paramsGet rest key

/-- Python `str(value)` rendering of an optional prompt (`None` renders as "None"). -/
def pyStr : Option (List Char) → List Char
  | none => "None".toList
  | some s => s

/-- Item lines of `json.dumps(params, indent=2, ensure_ascii=False)`. -/
def jsonItems : List (List Char × List Char) → List Char
  | [] => []
  | [(k, v)] => "  \"".toList ++ k ++ "\": \"".toList ++ v ++ "\"".toList
  | (k, v) :: rest =>
      "  \"".toList ++ k ++ "\": \"".toList ++ v ++ "\",\n".toList ++ jsonItems rest

/-- Rendering `json.dumps(params, indent=2, ensure_ascii=False)` (values are already
string-coerced in this embedding). -/
def jsonDumps (p : Params) : List Char :=
  match p with
  | [] => "\x7b\x7d".toList
  | _ => "\x7b\n".toList ++ jsonItems p ++ "\n\x7d".toList

/-- The fixed system-role instruction of `generate_latex_from_ai`. -/
def system_prompt : List Char :=
  ("Eres un generador experto de reportes en LaTeX. Tu salida debe ser un documento completo, comenzando con \\documentclass y terminando con \\end\x7bdocument\x7d. Sin Markdown ni explicaciones.").toList

/-- The user-role instruction of `generate_latex_from_ai` (the f-string,
including the source file's literal mojibake characters). -/
def user_prompt (params : Params) (prompt : Option (List Char)) : List Char :=
  "\nInstrucci\u221a\u2265n: ".toList ++ pyStr prompt
  ++ "\n\nDatos del reporte:\n".toList ++ jsonDumps params
  ++ "\n\nGenera un documento LaTeX completo en espa\u221a\u00b1ol, con estructura m\u221a\u2260nima profesional:\n- \\documentclass\x7barticle\x7d\n- \\usepackage[utf8]\x7binputenc\x7d\n- \\usepackage\x7bbooktabs\x7d\n- \\begin\x7bdocument\x7d ... \\end\x7bdocument\x7d\nIncluye t\u221a\u2260tulo, resumen, tabla con resultados y conclusi\u221a\u2265n.\n".toList

/-- Outcome of the `openai.chat.completions.create` call: either the call
itself raises (network/auth/quota), or it returns a message content. -/
inductive AIOutcome where
  | failure (msg : List Char)
  | success (content : List Char)

/-- A generative backend: maps (system message, user message) to an outcome. -/
def Backend : Type := List Char → List Char → AIOutcome

/-- The errors raised by the pipeline stages. -/
inductive PipelineError where
  | generationFailure (msg : List Char)
  | compilationFailure (out err : List Char)
  | archiveFailure (msg : List Char)
deriving DecidableEq

/-- Message `str(e)` of each pipeline exception, as interpolated by the handlers. -/
def errMsg : PipelineError → List Char
  | .generationFailure m => m
  | .compilationFailure o e =>
      "LaTeX no produjo el PDF.\nSTDOUT:\n".toList ++ o ++ "\n\nSTDERR:\n".toList ++ e
  | .archiveFailure m => "Error subiendo archivos a S3: ".toList ++ m

/-- Fallback-template segment before the sales value. -/
def fbHead : List Char :=
  ("\\documentclass[12pt]\x7barticle\x7d\n\\usepackage[utf8]\x7binputenc\x7d\n\\usepackage\x7bbooktabs\x7d\n\\usepackage\x7bgeometry\x7d\n\\geometry\x7bmargin=1in\x7d\n\\begin\x7bdocument\x7d\n\\section*\x7bReporte Financiero\x7d\nGenerado autom\u221a\u00b0ticamente a partir de los siguientes datos:\n\\begin\x7bitemize\x7d\n\\item ").toList

/-- Fallback-template field labels and separators. -/
def fbVentas : List Char := "Ventas: ".toList

def fbItemSep : List Char := "\n\\item ".toList

def fbCostos : List Char := "Costos: ".toList

def fbUtilidad : List Char := "Utilidad: ".toList

def fbAfterItems : List Char := "\n\\end\x7bitemize\x7d\n\n".toList

def fbComentario : List Char := "Comentario: ".toList

def fbTail : List Char := "\n\\end\x7bdocument\x7d".toList

/-- The deterministic fallback document (the `rf"""..."""` f-string after the
trailing `.strip()`), with the four sanitized field values substituted. -/
def fallback_template (params : Params) : List Char :=
  fbHead ++ fbVentas ++ sanitize_latex ((paramsGet params "ventas".toList).getD "N/A".toList)
  ++ fbItemSep ++ fbCostos ++ sanitize_latex ((paramsGet params "costos".toList).getD "N/A".toList)
  ++ fbItemSep ++ fbUtilidad ++ sanitize_latex ((paramsGet params "utilidad".toList).getD "N/A".toList)
  ++ fbAfterItems ++ fbComentario
  ++ sanitize_latex ((paramsGet params "comentario".toList).getD "Sin comentarios.".toList)
  ++ fbTail

/-- The document-class marker checked by `startswith("\\documentclass")`. -/
def docclassMarker : List Char := "\\documentclass".toList

/-- Function `generate_latex_from_ai(params, prompt)`: calls the backend; if the call
raises, the exception propagates (modelled as `Except.error`); otherwise the
response is stripped, fence markers removed, stripped again, and replaced by
the fallback template when it does not start with the document-class marker. -/
def generate_latex_from_ai (params : Params) (prompt : Option (List Char))
    (backend : Backend) : Except PipelineError (List Char) :=
  match backend system_prompt (user_prompt params prompt) with
  | .failure m => .error (.generationFailure m)
  | .success content =>
      let latex1 := pyStrip (stripFences (pyStrip content))
      if beginsWith docclassMarker (pyLStrip latex1) then .ok latex1
      else .ok (fallback_template params)

/-- S3 configuration (`S3_BUCKET` and the slash-normalized `S3_PREFIX`). -/
structure S3Config where
  bucket : List Char
  keyBase : List Char
deriving DecidableEq

/-- The startup normalization: append a slash when the configured key base is
non-empty and does not already end with one. -/
def normSlash (p : List Char) : List Char :=
  if p ≠ [] ∧ p.getLast? ≠ some '/' then p ++ ['/'] else p

/-- Builds the module-level S3 configuration from raw environment values. -/
def mkS3Config (bucket raw : List Char) : S3Config :=
  { bucket := bucket, keyBase := normSlash raw }

/-- Function `upload_file_to_s3`: returns `f"s3://{bucket}/{key}"` (failure of the
underlying client call is injected through `CompileEnv`). -/
def upload_file_to_s3 (_localPath bucket key : List Char) : List Char :=
  "s3://".toList ++ bucket ++ "/".toList ++ key

/-- Local final copy paths under `OUTPUT_DIR` (default `./output_reports`). -/
def localTexPath (rid : List Char) : List Char :=
  "output_reports/".toList ++ rid ++ ".tex".toList

def localPdfPath (rid : List Char) : List Char :=
  "output_reports/".toList ++ rid ++ ".pdf".toList

/-- Oracle for one `compile_latex_to_pdf` run: the toolchain's exit code and
captured output, whether the PDF file exists afterwards, and the outcome of
the two uploads (`none` = success, `some msg` = the client raised). -/
structure CompileEnv where
  exitcode : Int
  out : List Char
  err : List Char
  pdf_exists : Bool
  texUpErr : Option (List Char)
  pdfUpErr : Option (List Char)

/-- Result of `compile_latex_to_pdf` plus the externally visible local-file
effect: whether the final `.tex`/`.pdf` copies exist under `OUTPUT_DIR`. -/
structure CompileOut where
  result : Except PipelineError (List Char × List Char)
  localTex : Bool
  localPdf : Bool

/-- Function `compile_latex_to_pdf(tex_content, report_id, tenant_id)`: runs pdflatex,
raises `RuntimeError` carrying stdout/stderr iff the PDF file is absent
(the exit code is never consulted), otherwise moves both files to
`OUTPUT_DIR` and uploads them under `{S3_PREFIX}{tenant_id}/{report_id}.ext`,
wrapping any upload failure in `RuntimeError("Error subiendo archivos a S3: ...")`. -/
def compile_latex_to_pdf (cfg : S3Config) (_texContent : List Char)
    (rid tid : List Char) (env : CompileEnv) : CompileOut :=
  if env.pdf_exists = false then
    { result := .error (.compilationFailure env.out env.err),
      localTex := false, localPdf := false }
  else
    let texKey := cfg.keyBase ++ tid ++ "/".toList ++ rid ++ ".tex".toList
    let pdfKey := cfg.keyBase ++ tid ++ "/".toList ++ rid ++ ".pdf".toList
    match env.texUpErr with
    | some m =>
        { result := .error (.archiveFailure m), localTex := true, localPdf := true }
    | none =>
        match env.pdfUpErr with
        | some m =>
            { result := .error (.archiveFailure m), localTex := true, localPdf := true }
        | none =>
            { result := .ok (upload_file_to_s3 (localTexPath rid) cfg.bucket texKey,
                             upload_file_to_s3 (localPdfPath rid) cfg.bucket pdfKey),
              localTex := true, localPdf := true }

/-- The persisted `Report` row. -/
structure Report where
  id : List Char
  tenant_id : List Char
  rType : List Char
  period : List Char
  params : Params
  status : List Char
  storage_key_pdf : Option (List Char)
  storage_key_tex : Option (List Char)
  created_at : Nat
  updated_at : Nat
deriving DecidableEq

/-- The request body of `POST /reports/generate`. -/
structure ReportRequest where
  tenant_id : List Char
  rType : List Char
  period : List Char
  params : Params
  ai_prompt : Option (List Char)
deriving DecidableEq

/-- The pydantic default of the optional `ai_prompt` field. -/
def defaultAiPrompt : List Char :=
  "Genera un documento en LaTeX que resuma los datos financieros proporcionados.".toList

/-- Request binding: `aiField = none` means the JSON body omitted `ai_prompt`
(the pydantic default applies); `some v` means the field was present with
value `v` (possibly JSON `null` = `some none`). -/
def mkReportRequest (tid ty per : List Char) (params : Params)
    (aiField : Option (Option (List Char))) : ReportRequest :=
  { tenant_id := tid, rType := ty, period := per, params := params,
    ai_prompt := aiField.getD (some defaultAiPrompt) }

/-- The record inserted at the start of `generate_report` (status
`processing`, no storage keys, both timestamps at creation time). -/
def mkInitialReport (req : ReportRequest) (rid : List Char) (t0 : Nat) : Report :=
  { id := rid, tenant_id := req.tenant_id, rType := req.rType,
    period := req.period, params := req.params, status := "processing".toList,
    storage_key_pdf := none, storage_key_tex := none,
    created_at := t0, updated_at := t0 }

/-- An HTTP error response (`HTTPException`). -/
structure HTTPErr where
  status_code : Nat
  detail : List Char
deriving DecidableEq

/-- The success body of `POST /reports/generate`. -/
structure GenerateResp where
  id : List Char
  status : List Char
  pdf_path : List Char
deriving DecidableEq

/-- External-world oracle for one `generate_report` request. -/
structure GenEnv where
  backend : Backend
  cenv : CompileEnv

/-- Endpoint `POST /reports/generate`: creates the `processing` record, runs
generation → compilation/archiving, then performs exactly one terminal
update: `ready` with both storage keys on success, or `error` touching only
`status`/`updated_at` when any stage raised (the `except Exception` handler),
translating the exception into `HTTPException(500, ...)`.  `rid` is the
generated record id, `t0`/`t1` the creation/update clock readings; the second
component is the finally persisted record. -/
def generate_report (cfg : S3Config) (req : ReportRequest) (rid : List Char)
    (t0 t1 : Nat) (env : GenEnv) : Except HTTPErr GenerateResp × Report :=
  match generate_latex_from_ai req.params req.ai_prompt env.backend with
  | .error e =>
      (.error { status_code := 500,
                detail := "Error generando reporte: ".toList ++ errMsg e },
       { mkInitialReport req rid t0 with status := "error".toList, updated_at := t1 })
  | .ok latex =>
      match (compile_latex_to_pdf cfg latex rid req.tenant_id env.cenv).result with
      | .error e =>
          (.error { status_code := 500,
                    detail := "Error generando reporte: ".toList ++ errMsg e },
           { mkInitialReport req rid t0 with status := "error".toList, updated_at := t1 })
      | .ok (texPath, pdfPath) =>
          (.ok { id := rid, status := "ready".toList, pdf_path := pdfPath },
           { mkInitialReport req rid t0 with
             status := "ready".toList,
             storage_key_tex := some texPath,
             storage_key_pdf := some pdfPath,
             updated_at := t1 })

/-- A value of `FileResponse(path, filename=...)`. -/
structure FileResp where
  path : List Char
  filename : List Char
deriving DecidableEq

/-- Endpoint `GET /reports/download/{report_id}`: 404 when the record is missing or
`storage_key_pdf` is falsy (None or empty), otherwise a `FileResponse` on the
stored key. -/
def download_report (db : List Report) (rid : List Char) : Except HTTPErr FileResp :=
  match db.find? (fun r => r.id == rid) with
  | none => .error { status_code := 404, detail := "PDF no disponible".toList }
  | some r =>
      match r.storage_key_pdf with
      | none => .error { status_code := 404, detail := "PDF no disponible".toList }
      | some k =>
          if k = [] then
            .error { status_code := 404, detail := "PDF no disponible".toList }
          else .ok { path := k, filename := rid ++ ".pdf".toList }

/-- The §3 record invariant: status and artifact keys are consistent. -/
def statusKeysConsistent (r : Report) : Prop :=
  (r.status = "ready".toList →
    (∃ k, r.storage_key_pdf = some k ∧ k ≠ []) ∧
    (∃ k, r.storage_key_tex = some k ∧ k ≠ [])) ∧
  (r.status = "processing".toList ∨ r.status = "error".toList →
    r.storage_key_pdf = none ∧ r.storage_key_tex = none)

/-- Does some pipeline stage of this request fail under this oracle? -/
def stageFails (req : ReportRequest) (env : GenEnv) : Bool :=
  match env.backend system_prompt (user_prompt req.params req.ai_prompt) with
  | .failure _ => true
  | .success _ =>
      !env.cenv.pdf_exists || env.cenv.texUpErr.isSome || env.cenv.pdfUpErr.isSome

/-- Invariant that no occurrence of `c` is unescaped: every occurrence of
`c` in the list is immediately preceded by a backslash (`prev` being the
character just before the list's head). -/
def NoUnesc (c : Char) : Option Char → List Char → Prop
  | _, [] => True
  | prev, x :: xs => (x = c → prev = some '\\') ∧ NoUnesc c (some x) xs

/- Sample inputs shared by the closed witness theorems. -/

def sampleParams : Params := [("ventas".toList, "100".toList)]

def sampleReq : ReportRequest :=
  mkReportRequest "T".toList "monthly".toList "2024-01".toList sampleParams none

def sampleCfg : S3Config := mkS3Config "ocr-files-db".toList "pdf".toList

def sampleRid : List Char := "R1".toList

def goodLatex : List Char :=
  "\\documentclass\x7barticle\x7d\\begin\x7bdocument\x7dHola\\end\x7bdocument\x7d".toList

def okCompileEnv : CompileEnv :=
  { exitcode := 0, out := [], err := [], pdf_exists := true,
    texUpErr := none, pdfUpErr := none }

def okEnv : GenEnv := { backend := fun _ _ => .success goodLatex, cenv := okCompileEnv }

def failEnv : GenEnv :=
  { backend := fun _ _ => .failure "boom".toList, cenv := okCompileEnv }

/-! ## Lemmas about the sanitizer passes -/

theorem escSub_eq_of_not_mem {c : Char} {repl : List Char} :
    ∀ {prev : Option Char} {s : List Char}, c ∉ s → escSub c repl prev s = s := by
  intro prev s
  induction s generalizing prev with
  | nil => intro _; rfl
  | cons x xs ih =>
    intro h
    have hx : ¬(x = c ∧ prev ≠ some '\\') := by
      rintro ⟨hxc, -⟩
      refine h ?_
      rw [← hxc]
      exact List.mem_cons_self x xs
    simp only [escSub, if_neg hx]
    rw [ih (fun hc => h (List.mem_cons_of_mem _ hc))]

theorem mem_of_mem_escSub {c : Char} {repl : List Char} {a : Char} :
    ∀ {prev : Option Char} {s : List Char},
      a ∈ escSub c repl prev s → a ∈ s ∨ a ∈ repl := by
  intro prev s
  induction s generalizing prev with
  | nil => intro h; exact absurd h (by simp [escSub])
  | cons x xs ih =>
    intro h
    by_cases hx : x = c ∧ prev ≠ some '\\'
    · simp only [escSub, if_pos hx] at h
      rcases List.mem_append.1 h with h' | h'
      · exact Or.inr h'
      · rcases ih h' with h'' | h''
        · exact Or.inl (List.mem_cons_of_mem _ h'')
        · exact Or.inr h''
    · simp only [escSub, if_neg hx] at h
      rcases List.mem_cons.1 h with h' | h'
      · refine Or.inl ?_
        rw [h']
        exact List.mem_cons_self _ _
      · rcases ih h' with h'' | h''
        · exact Or.inl (List.mem_cons_of_mem _ h'')
        · exact Or.inr h''

theorem not_mem_escSub {c : Char} {repl : List Char} {a : Char}
    (ha : a ∉ repl) {prev : Option Char} {s : List Char} (hs : a ∉ s) :
    a ∉ escSub c repl prev s :=
  fun h => (mem_of_mem_escSub h).elim hs ha

theorem escSub_eq_of_noUnesc {c : Char} {repl : List Char} :
    ∀ {prev : Option Char} {s : List Char},
      NoUnesc c prev s → escSub c repl prev s = s := by
  intro prev s
  induction s generalizing prev with
  | nil => intro _; rfl
  | cons x xs ih =>
    intro h
    simp only [NoUnesc] at h
    obtain ⟨h1, h2⟩ := h
    have hx : ¬(x = c ∧ prev ≠ some '\\') := fun hh => hh.2 (h1 hh.1)
    simp only [escSub, if_neg hx]
    rw [ih h2]

theorem noUnesc_escSub {c : Char} (hc : c ≠ '\\') :
    ∀ (prev : Option Char) (s : List Char),
      NoUnesc c prev (escSub c (esc c) prev s) := by
  intro prev s
  induction s generalizing prev with
  | nil => exact trivial
  | cons x xs ih =>
    by_cases hx : x = c ∧ prev ≠ some '\\'
    · have hstep : escSub c (esc c) prev (x :: xs)
          = '\\' :: c :: escSub c (esc c) (some x) xs := by
        simp only [escSub, if_pos hx, esc, List.cons_append, List.nil_append]
      rw [hstep]
      refine ⟨fun h => absurd h.symm hc, fun _ => rfl, ?_⟩
      rw [hx.1]
      exact ih (some c)
    · have hstep : escSub c (esc c) prev (x :: xs)
          = x :: escSub c (esc c) (some x) xs := by
        simp only [escSub, if_neg hx]
      rw [hstep]
      refine ⟨?_, ih (some x)⟩
      intro hxc
      by_cases hp : prev = some '\\'
      · exact hp
      · exact absurd ⟨hxc, hp⟩ hx

theorem noUnesc_escSub_other {c d : Char} (hd : d ≠ '\\') :
    ∀ (prev : Option Char) (s : List Char), NoUnesc d prev s →
      NoUnesc d prev (escSub c (esc c) prev s) := by
  intro prev s
  induction s generalizing prev with
  | nil => intro h; exact h
  | cons x xs ih =>
    intro h
    simp only [NoUnesc] at h
    obtain ⟨h1, h2⟩ := h
    by_cases hx : x = c ∧ prev ≠ some '\\'
    · have hstep : escSub c (esc c) prev (x :: xs)
          = '\\' :: c :: escSub c (esc c) (some x) xs := by
        simp only [escSub, if_pos hx, esc, List.cons_append, List.nil_append]
      rw [hstep]
      refine ⟨fun hh => absurd hh.symm hd, fun _ => rfl, ?_⟩
      rw [hx.1]
      exact ih (some c) (hx.1 ▸ h2)
    · have hstep : escSub c (esc c) prev (x :: xs)
          = x :: escSub c (esc c) (some x) xs := by
        simp only [escSub, if_neg hx]
      rw [hstep]
      exact ⟨h1, ih (some x) h2⟩

theorem sanitize_unfold (t : List Char) :
    sanitize_latex t = escSub '^' caretRepl none (escSub '~' tildeRepl none (sanitize7 t)) :=
  rfl

theorem tilde_not_mem_sanitize7 {t : List Char} (h : '~' ∉ t) : '~' ∉ sanitize7 t := by
  unfold sanitize7
  exact not_mem_escSub (by decide) (not_mem_escSub (by decide) (not_mem_escSub (by decide)
    (not_mem_escSub (by decide) (not_mem_escSub (by decide) (not_mem_escSub (by decide)
      (not_mem_escSub (by decide) h))))))

theorem caret_not_mem_sanitize7 {t : List Char} (h : '^' ∉ t) : '^' ∉ sanitize7 t := by
  unfold sanitize7
  exact not_mem_escSub (by decide) (not_mem_escSub (by decide) (not_mem_escSub (by decide)
    (not_mem_escSub (by decide) (not_mem_escSub (by decide) (not_mem_escSub (by decide)
      (not_mem_escSub (by decide) h))))))

theorem sanitize_eq_sanitize7 {t : List Char} (h1 : '~' ∉ t) (h2 : '^' ∉ t) :
    sanitize_latex t = sanitize7 t := by
  rw [sanitize_unfold, escSub_eq_of_not_mem (tilde_not_mem_sanitize7 h1),
      escSub_eq_of_not_mem (caret_not_mem_sanitize7 h2)]

theorem noUnesc_sanitize7_amp (t : List Char) : NoUnesc '&' none (sanitize7 t) := by
  unfold sanitize7
  apply noUnesc_escSub_other (by decide)
  apply noUnesc_escSub_other (by decide)
  apply noUnesc_escSub_other (by decide)
  apply noUnesc_escSub_other (by decide)
  apply noUnesc_escSub_other (by decide)
  apply noUnesc_escSub_other (by decide)
  exact noUnesc_escSub (by decide) none t

theorem noUnesc_sanitize7_pct (t : List Char) : NoUnesc '%' none (sanitize7 t) := by
  unfold sanitize7
  apply noUnesc_escSub_other (by decide)
  apply noUnesc_escSub_other (by decide)
  apply noUnesc_escSub_other (by decide)
  apply noUnesc_escSub_other (by decide)
  apply noUnesc_escSub_other (by decide)
  exact noUnesc_escSub (by decide) none _

theorem noUnesc_sanitize7_dollar (t : List Char) : NoUnesc '$' none (sanitize7 t) := by
  unfold sanitize7
  apply noUnesc_escSub_other (by decide)
  apply noUnesc_escSub_other (by decide)
  apply noUnesc_escSub_other (by decide)
  apply noUnesc_escSub_other (by decide)
  exact noUnesc_escSub (by decide) none _

theorem noUnesc_sanitize7_hash (t : List Char) : NoUnesc '#' none (sanitize7 t) := by
  unfold sanitize7
  apply noUnesc_escSub_other (by decide)
  apply noUnesc_escSub_other (by decide)
  apply noUnesc_escSub_other (by decide)
  exact noUnesc_escSub (by decide) none _

theorem noUnesc_sanitize7_under (t : List Char) : NoUnesc '_' none (sanitize7 t) := by
  unfold sanitize7
  apply noUnesc_escSub_other (by decide)
  apply noUnesc_escSub_other (by decide)
  exact noUnesc_escSub (by decide) none _

theorem noUnesc_sanitize7_lbrace (t : List Char) : NoUnesc '\x7b' none (sanitize7 t) := by
  unfold sanitize7
  apply noUnesc_escSub_other (by decide)
  exact noUnesc_escSub (by decide) none _

theorem noUnesc_sanitize7_rbrace (t : List Char) : NoUnesc '\x7d' none (sanitize7 t) := by
  unfold sanitize7
  exact noUnesc_escSub (by decide) none _

theorem sanitize7_fixed {s : List Char}
    (hamp : NoUnesc '&' none s) (hpct : NoUnesc '%' none s)
    (hdol : NoUnesc '$' none s) (hhash : NoUnesc '#' none s)
    (hund : NoUnesc '_' none s) (hlb : NoUnesc '\x7b' none s)
    (hrb : NoUnesc '\x7d' none s) :
    sanitize7 s = s := by
  unfold sanitize7
  rw [escSub_eq_of_noUnesc hamp, escSub_eq_of_noUnesc hpct, escSub_eq_of_noUnesc hdol,
      escSub_eq_of_noUnesc hhash, escSub_eq_of_noUnesc hund, escSub_eq_of_noUnesc hlb,
      escSub_eq_of_noUnesc hrb]

theorem sanitize7_idem (t : List Char) : sanitize7 (sanitize7 t) = sanitize7 t :=
  sanitize7_fixed (noUnesc_sanitize7_amp t) (noUnesc_sanitize7_pct t)
    (noUnesc_sanitize7_dollar t) (noUnesc_sanitize7_hash t) (noUnesc_sanitize7_under t)
    (noUnesc_sanitize7_lbrace t) (noUnesc_sanitize7_rbrace t)

/-! ## Claim theorems -/

/-- C5 (counterexample): `sanitize_latex` is NOT idempotent on every input.
On `"~"` the first pass produces TAB + `extasciitilde{}` (the `re.sub`
template turns `\t` into a TAB), whose braces are not preceded by a
backslash, so a second pass escapes them again, yielding
TAB + `extasciitilde\{\}`. -/
theorem sanitize_latex_not_idempotent_on_tilde :
    sanitize_latex (sanitize_latex ['~']) ≠ sanitize_latex ['~'] := by decide

/-- C5 (amended): for every input containing neither a tilde nor a caret
(the two characters whose replacement text — a TAB followed by
`extasciitilde{}` / `extasciicircum{}` — introduces unescaped braces),
`sanitize_latex` is idempotent — no character is escaped twice, and a special
character already preceded by the escape marker is left untouched; in
particular `sanitize_latex "100 & 50%" = "100 \& 50\%"`. -/
theorem sanitize_latex_idempotent_of_no_tilde_caret (t : List Char)
    (h1 : '~' ∉ t) (h2 : '^' ∉ t) :
    sanitize_latex (sanitize_latex t) = sanitize_latex t
    ∧ sanitize_latex "100 & 50%".toList = "100 \\& 50\\%".toList := by
  refine ⟨?_, by decide⟩
  rw [sanitize_eq_sanitize7 h1 h2,
      sanitize_eq_sanitize7 (tilde_not_mem_sanitize7 h1) (caret_not_mem_sanitize7 h2),
      sanitize7_idem]

/-- C5 witness: the amended idempotence theorem applied at `"100 & 50%"`. -/
theorem sanitize_latex_idempotent_witness :
    sanitize_latex (sanitize_latex "100 & 50%".toList) = sanitize_latex "100 & 50%".toList
    ∧ sanitize_latex "100 & 50%".toList = "100 \\& 50\\%".toList :=
  sanitize_latex_idempotent_of_no_tilde_caret "100 & 50%".toList (by decide) (by decide)

/-- C2: when the backend call itself fails, `generate_latex_from_ai` fails
with the generation failure carrying that error — the exception propagates
out of the function — and the fallback template is never produced (the
result is not `ok` at all, for any document). -/
theorem backend_error_propagates (params : Params) (prompt : Option (List Char))
    (backend : Backend) (m : List Char)
    (h : backend system_prompt (user_prompt params prompt) = .failure m) :
    generate_latex_from_ai params prompt backend = .error (.generationFailure m)
    ∧ ∀ s, generate_latex_from_ai params prompt backend ≠ .ok s := by
  unfold generate_latex_from_ai
  rw [h]
  exact ⟨rfl, fun s hs => by cases hs⟩

/-- C2 witness: a backend whose call raises `"boom"`. -/
theorem backend_error_propagates_witness :
    generate_latex_from_ai sampleParams (some defaultAiPrompt)
        (fun _ _ => .failure "boom".toList)
      = .error (.generationFailure "boom".toList)
    ∧ ∀ s, generate_latex_from_ai sampleParams (some defaultAiPrompt)
        (fun _ _ => .failure "boom".toList) ≠ .ok s :=
  backend_error_propagates sampleParams (some defaultAiPrompt) _ "boom".toList rfl

theorem beginsWith_append {p s : List Char} (h : beginsWith p s = true) (t : List Char) :
    beginsWith p (s ++ t) = true := by
  induction p generalizing s with
  | nil => rfl
  | cons x p ih =>
    cases s with
    | nil => simp [beginsWith] at h
    | cons y s =>
      simp only [beginsWith, Bool.and_eq_true, List.cons_append] at h ⊢
      exact ⟨h.1, ih h.2⟩

/-- C3: whenever the backend's response — after trimming and stripping fence
markers — does not start with `\documentclass`, the function returns exactly
the deterministic fallback template, which itself starts with
`\documentclass` and embeds the sanitized `ventas`/`costos`/`utilidad`/
`comentario` values with the `N/A` / `Sin comentarios.` defaults. -/
theorem malformed_response_yields_fallback (params : Params)
    (prompt : Option (List Char)) (backend : Backend) (content : List Char)
    (hb : backend system_prompt (user_prompt params prompt) = .success content)
    (hm : beginsWith docclassMarker
        (pyLStrip (pyStrip (stripFences (pyStrip content)))) = false) :
    generate_latex_from_ai params prompt backend = .ok (fallback_template params)
    ∧ beginsWith docclassMarker (fallback_template params) = true
    ∧ (∃ a b, fallback_template params
        = a ++ ("Ventas: ".toList
            ++ sanitize_latex ((paramsGet params "ventas".toList).getD "N/A".toList)) ++ b)
    ∧ (∃ a b, fallback_template params
        = a ++ ("Costos: ".toList
            ++ sanitize_latex ((paramsGet params "costos".toList).getD "N/A".toList)) ++ b)
    ∧ (∃ a b, fallback_template params
        = a ++ ("Utilidad: ".toList
            ++ sanitize_latex ((paramsGet params "utilidad".toList).getD "N/A".toList)) ++ b)
    ∧ (∃ a b, fallback_template params
        = a ++ ("Comentario: ".toList
            ++ sanitize_latex ((paramsGet params "comentario".toList).getD "Sin comentarios.".toList)) ++ b) := by
  refine ⟨?_, ?_, ?_, ?_, ?_, ?_⟩
  · unfold generate_latex_from_ai
    rw [hb]
    simp [hm]
  · unfold fallback_template
    apply beginsWith_append
    apply beginsWith_append
    apply beginsWith_append
    apply beginsWith_append
    apply beginsWith_append
    apply beginsWith_append
    apply beginsWith_append
    apply beginsWith_append
    apply beginsWith_append
    apply beginsWith_append
    apply beginsWith_append
    apply beginsWith_append
    decide
  · refine ⟨fbHead,
      fbItemSep ++ fbCostos
        ++ sanitize_latex ((paramsGet params "costos".toList).getD "N/A".toList)
        ++ fbItemSep ++ fbUtilidad
        ++ sanitize_latex ((paramsGet params "utilidad".toList).getD "N/A".toList)
        ++ fbAfterItems ++ fbComentario
        ++ sanitize_latex ((paramsGet params "comentario".toList).getD "Sin comentarios.".toList)
        ++ fbTail, ?_⟩
    simp [fallback_template, fbVentas, List.append_assoc]
  · refine ⟨fbHead ++ fbVentas
        ++ sanitize_latex ((paramsGet params "ventas".toList).getD "N/A".toList)
        ++ fbItemSep,
      fbItemSep ++ fbUtilidad
        ++ sanitize_latex ((paramsGet params "utilidad".toList).getD "N/A".toList)
        ++ fbAfterItems ++ fbComentario
        ++ sanitize_latex ((paramsGet params "comentario".toList).getD "Sin comentarios.".toList)
        ++ fbTail, ?_⟩
    simp [fallback_template, fbCostos, List.append_assoc]
  · refine ⟨fbHead ++ fbVentas
        ++ sanitize_latex ((paramsGet params "ventas".toList).getD "N/A".toList)
        ++ fbItemSep ++ fbCostos
        ++ sanitize_latex ((paramsGet params "costos".toList).getD "N/A".toList)
        ++ fbItemSep,
      fbAfterItems ++ fbComentario
        ++ sanitize_latex ((paramsGet params "comentario".toList).getD "Sin comentarios.".toList)
        ++ fbTail, ?_⟩
    simp [fallback_template, fbUtilidad, List.append_assoc]
  · refine ⟨fbHead ++ fbVentas
        ++ sanitize_latex ((paramsGet params "ventas".toList).getD "N/A".toList)
        ++ fbItemSep ++ fbCostos
        ++ sanitize_latex ((paramsGet params "costos".toList).getD "N/A".toList)
        ++ fbItemSep ++ fbUtilidad
        ++ sanitize_latex ((paramsGet params "utilidad".toList).getD "N/A".toList)
        ++ fbAfterItems,
      fbTail, ?_⟩
    simp [fallback_template, fbComentario, List.append_assoc]

/-- C3 witness: a successful but malformed response (`"hola"`) on the sample
payload produces the fallback template. -/
theorem malformed_response_witness :
    generate_latex_from_ai sampleParams (some defaultAiPrompt)
        (fun _ _ => .success "hola".toList)
      = .ok (fallback_template sampleParams) :=
  (malformed_response_yields_fallback sampleParams (some defaultAiPrompt)
    (fun _ _ => .success "hola".toList) "hola".toList rfl (by decide)).1

/-- C4: compilation success is defined solely by the presence of the PDF:
when absent, the result is a `CompilationFailure` carrying the captured
stdout/stderr; when present the run proceeds as a success of the compilation
stage — it returns the archive result (its keys, or an `ArchiveFailure`) and
never a compilation failure; and the whole function is independent of the
toolchain's exit code. -/
theorem compile_success_iff_pdf_present (cfg : S3Config) (tex rid tid : List Char)
    (env : CompileEnv) :
    (env.pdf_exists = false →
      (compile_latex_to_pdf cfg tex rid tid env).result
        = .error (.compilationFailure env.out env.err))
    ∧ (env.pdf_exists = true →
      ((∃ p, (compile_latex_to_pdf cfg tex rid tid env).result = .ok p)
        ∨ (∃ m, (compile_latex_to_pdf cfg tex rid tid env).result
              = .error (.archiveFailure m)))
      ∧ ∀ o e, (compile_latex_to_pdf cfg tex rid tid env).result
        ≠ .error (.compilationFailure o e))
    ∧ (∀ n : Int, compile_latex_to_pdf cfg tex rid tid { env with exitcode := n }
        = compile_latex_to_pdf cfg tex rid tid env) := by
  refine ⟨?_, ?_, ?_⟩
  · intro h
    simp [compile_latex_to_pdf, h]
  · intro h
    cases htex : env.texUpErr with
    | some m =>
      have hres : (compile_latex_to_pdf cfg tex rid tid env).result
          = .error (.archiveFailure m) := by
        simp [compile_latex_to_pdf, h, htex]
      refine ⟨Or.inr ⟨m, hres⟩, ?_⟩
      intro o e hne
      rw [hres] at hne
      simp at hne
    | none =>
      cases hpdfe : env.pdfUpErr with
      | some m =>
        have hres : (compile_latex_to_pdf cfg tex rid tid env).result
            = .error (.archiveFailure m) := by
          simp [compile_latex_to_pdf, h, htex, hpdfe]
        refine ⟨Or.inr ⟨m, hres⟩, ?_⟩
        intro o e hne
        rw [hres] at hne
        simp at hne
      | none =>
        have hres : (compile_latex_to_pdf cfg tex rid tid env).result
            = .ok (upload_file_to_s3 (localTexPath rid) cfg.bucket
                     (cfg.keyBase ++ tid ++ "/".toList ++ rid ++ ".tex".toList),
                   upload_file_to_s3 (localPdfPath rid) cfg.bucket
                     (cfg.keyBase ++ tid ++ "/".toList ++ rid ++ ".pdf".toList)) := by
          simp [compile_latex_to_pdf, h, htex, hpdfe, upload_file_to_s3]
        refine ⟨Or.inl ⟨_, hres⟩, ?_⟩
        intro o e hne
        rw [hres] at hne
        simp at hne
  · intro n
    cases env
    rfl

/-- C4 witness: a run whose toolchain produced no PDF file. -/
theorem compile_pdf_absent_witness :
    (compile_latex_to_pdf sampleCfg goodLatex sampleRid "T".toList
        { exitcode := 0, out := "out".toList, err := "err".toList,
          pdf_exists := false, texUpErr := none, pdfUpErr := none }).result
      = .error (.compilationFailure "out".toList "err".toList) :=
  (compile_success_iff_pdf_present sampleCfg goodLatex sampleRid "T".toList _).1 rfl

/-- When `compile_latex_to_pdf` succeeds, the two returned references have
exactly the `s3://{bucket}/{prefix}{tenant}/{report}.ext` shape. -/
theorem compile_ok_shape {cfg : S3Config} {tc rid tid : List Char}
    {env : CompileEnv} {a b : List Char}
    (h : (compile_latex_to_pdf cfg tc rid tid env).result = .ok (a, b)) :
    a = "s3://".toList ++ cfg.bucket ++ "/".toList
        ++ (cfg.keyBase ++ tid ++ "/".toList ++ rid ++ ".tex".toList)
    ∧ b = "s3://".toList ++ cfg.bucket ++ "/".toList
        ++ (cfg.keyBase ++ tid ++ "/".toList ++ rid ++ ".pdf".toList) := by
  by_cases hp : env.pdf_exists = false
  · simp [compile_latex_to_pdf, hp] at h
  · cases htex : env.texUpErr with
    | some m => simp [compile_latex_to_pdf, hp, htex] at h
    | none =>
      cases hpdfe : env.pdfUpErr with
      | some m => simp [compile_latex_to_pdf, hp, htex, hpdfe] at h
      | none =>
        have hres : (compile_latex_to_pdf cfg tc rid tid env).result
            = .ok (upload_file_to_s3 (localTexPath rid) cfg.bucket
                     (cfg.keyBase ++ tid ++ "/".toList ++ rid ++ ".tex".toList),
                   upload_file_to_s3 (localPdfPath rid) cfg.bucket
                     (cfg.keyBase ++ tid ++ "/".toList ++ rid ++ ".pdf".toList)) := by
          simp [compile_latex_to_pdf, hp, htex, hpdfe, upload_file_to_s3]
        rw [hres] at h
        simp only [Except.ok.injEq, Prod.mk.injEq] at h
        exact ⟨h.1.symm, h.2.symm⟩

/-- A storage reference built by `upload_file_to_s3` is never empty. -/
theorem s3_ref_ne_nil (b k : List Char) :
    "s3://".toList ++ b ++ "/".toList ++ k ≠ [] := by
  intro h
  have h2 : 's' ∈ ("s3://".toList ++ b ++ "/".toList ++ k) := by
    apply List.mem_append_left
    apply List.mem_append_left
    apply List.mem_append_left
    decide
  rw [h] at h2
  exact (List.not_mem_nil _) h2

/-- C8: with the PDF present, archiving publishes the source and artifact
under the deterministic tenant-scoped keys `{prefix}{tenant}/{report}.tex`
and `.pdf`, returning the matching `s3://{bucket}/{key}` references; if
either upload raises, the stage fails with an `ArchiveFailure`; and the
local copies under the output directory exist regardless of the upload
outcome. -/
theorem archive_publishes_tenant_scoped_keys (cfg : S3Config)
    (tex rid tid : List Char) (env : CompileEnv) (hp : env.pdf_exists = true) :
    (env.texUpErr = none → env.pdfUpErr = none →
      (compile_latex_to_pdf cfg tex rid tid env).result
        = .ok ("s3://".toList ++ cfg.bucket ++ "/".toList
                 ++ (cfg.keyBase ++ tid ++ "/".toList ++ rid ++ ".tex".toList),
               "s3://".toList ++ cfg.bucket ++ "/".toList
                 ++ (cfg.keyBase ++ tid ++ "/".toList ++ rid ++ ".pdf".toList)))
    ∧ (env.texUpErr ≠ none ∨ env.pdfUpErr ≠ none →
        ∃ m, (compile_latex_to_pdf cfg tex rid tid env).result
          = .error (.archiveFailure m))
    ∧ (compile_latex_to_pdf cfg tex rid tid env).localTex = true
    ∧ (compile_latex_to_pdf cfg tex rid tid env).localPdf = true := by
  refine ⟨?_, ?_, ?_, ?_⟩
  · intro htex hpdfe
    simp [compile_latex_to_pdf, hp, htex, hpdfe, upload_file_to_s3]
  · intro hfail
    cases htex : env.texUpErr with
    | some m =>
      exact ⟨m, by simp [compile_latex_to_pdf, hp, htex]⟩
    | none =>
      cases hpdfe : env.pdfUpErr with
      | some m => exact ⟨m, by simp [compile_latex_to_pdf, hp, htex, hpdfe]⟩
      | none =>
        rw [htex, hpdfe] at hfail
        rcases hfail with hf | hf <;> exact absurd rfl hf
  · cases htex : env.texUpErr with
    | some m => simp [compile_latex_to_pdf, hp, htex]
    | none =>
      cases hpdfe : env.pdfUpErr with
      | some m => simp [compile_latex_to_pdf, hp, htex, hpdfe]
      | none => simp [compile_latex_to_pdf, hp, htex, hpdfe]
  · cases htex : env.texUpErr with
    | some m => simp [compile_latex_to_pdf, hp, htex]
    | none =>
      cases hpdfe : env.pdfUpErr with
      | some m => simp [compile_latex_to_pdf, hp, htex, hpdfe]
      | none => simp [compile_latex_to_pdf, hp, htex, hpdfe]

/-- C8 witness: a fully successful archive run on the sample identifiers. -/
theorem archive_publishes_witness :
    (compile_latex_to_pdf sampleCfg goodLatex sampleRid "T".toList okCompileEnv).result
      = .ok ("s3://".toList ++ sampleCfg.bucket ++ "/".toList
               ++ (sampleCfg.keyBase ++ "T".toList ++ "/".toList ++ sampleRid ++ ".tex".toList),
             "s3://".toList ++ sampleCfg.bucket ++ "/".toList
               ++ (sampleCfg.keyBase ++ "T".toList ++ "/".toList ++ sampleRid ++ ".pdf".toList)) :=
  (archive_publishes_tenant_scoped_keys sampleCfg goodLatex sampleRid "T".toList
    okCompileEnv rfl).1 rfl rfl


/-- When generation raises, `generate_report` returns the 500 response and
persists the error-updated record. -/
theorem generate_report_gen_error {cfg : S3Config} {req : ReportRequest}
    {rid : List Char} {t0 t1 : Nat} {env : GenEnv} {e : PipelineError}
    (hg : generate_latex_from_ai req.params req.ai_prompt env.backend = .error e) :
    generate_report cfg req rid t0 t1 env
      = (.error { status_code := 500,
                  detail := "Error generando reporte: ".toList ++ errMsg e },
         { mkInitialReport req rid t0 with
           status := "error".toList,
           updated_at := t1 }) := by
  unfold generate_report
  rw [hg]

/-- When compilation/archiving raises, `generate_report` returns the 500
response and persists the error-updated record. -/
theorem generate_report_compile_error {cfg : S3Config} {req : ReportRequest}
    {rid : List Char} {t0 t1 : Nat} {env : GenEnv} {latex : List Char}
    {e : PipelineError}
    (hg : generate_latex_from_ai req.params req.ai_prompt env.backend = .ok latex)
    (hc : (compile_latex_to_pdf cfg latex rid req.tenant_id env.cenv).result
        = .error e) :
    generate_report cfg req rid t0 t1 env
      = (.error { status_code := 500,
                  detail := "Error generando reporte: ".toList ++ errMsg e },
         { mkInitialReport req rid t0 with
           status := "error".toList,
           updated_at := t1 }) := by
  unfold generate_report
  rw [hg]
  dsimp only
  rw [hc]

/-- When every stage succeeds, `generate_report` returns the success body and
persists the ready record carrying both storage keys. -/
theorem generate_report_ok {cfg : S3Config} {req : ReportRequest}
    {rid : List Char} {t0 t1 : Nat} {env : GenEnv} {latex texP pdfP : List Char}
    (hg : generate_latex_from_ai req.params req.ai_prompt env.backend = .ok latex)
    (hc : (compile_latex_to_pdf cfg latex rid req.tenant_id env.cenv).result
        = .ok (texP, pdfP)) :
    generate_report cfg req rid t0 t1 env
      = (.ok { id := rid, status := "ready".toList, pdf_path := pdfP },
         { mkInitialReport req rid t0 with
           status := "ready".toList,
           storage_key_tex := some texP,
           storage_key_pdf := some pdfP,
           updated_at := t1 }) := by
  unfold generate_report
  rw [hg]
  dsimp only
  rw [hc]

/-- C1: every record persisted by the service satisfies the status/key
invariant — the initial `processing` record has no keys, the final record is
consistent in every branch (`ready` implies both keys present and non-empty,
`error` implies both absent), and the error-terminal update leaves the
reference fields exactly as initially persisted. -/
theorem report_status_keys_consistent (cfg : S3Config) (req : ReportRequest)
    (rid : List Char) (t0 t1 : Nat) (env : GenEnv) :
    statusKeysConsistent (mkInitialReport req rid t0)
    ∧ statusKeysConsistent (generate_report cfg req rid t0 t1 env).2
    ∧ ((generate_report cfg req rid t0 t1 env).2.status = "error".toList →
        (generate_report cfg req rid t0 t1 env).2.storage_key_pdf
          = (mkInitialReport req rid t0).storage_key_pdf
        ∧ (generate_report cfg req rid t0 t1 env).2.storage_key_tex
          = (mkInitialReport req rid t0).storage_key_tex) := by
  refine ⟨⟨fun h => absurd (show "processing".toList = "ready".toList from h) (by decide),
           fun _ => ⟨rfl, rfl⟩⟩, ?_, ?_⟩
  · cases hg : generate_latex_from_ai req.params req.ai_prompt env.backend with
    | error e =>
      rw [generate_report_gen_error hg]
      exact ⟨fun h => absurd (show "error".toList = "ready".toList from h) (by decide),
             fun _ => ⟨rfl, rfl⟩⟩
    | ok latex =>
      cases hc : (compile_latex_to_pdf cfg latex rid req.tenant_id env.cenv).result with
      | error e =>
        rw [generate_report_compile_error hg hc]
        exact ⟨fun h => absurd (show "error".toList = "ready".toList from h) (by decide),
               fun _ => ⟨rfl, rfl⟩⟩
      | ok pr =>
        obtain ⟨texP, pdfP⟩ := pr
        obtain ⟨h1, h2⟩ := compile_ok_shape hc
        rw [generate_report_ok hg hc]
        constructor
        · intro _
          refine ⟨⟨pdfP, rfl, ?_⟩, ⟨texP, rfl, ?_⟩⟩
          · rw [h2]; exact s3_ref_ne_nil _ _
          · rw [h1]; exact s3_ref_ne_nil _ _
        · rintro (h | h)
          · exact absurd (show "ready".toList = "processing".toList from h) (by decide)
          · exact absurd (show "ready".toList = "error".toList from h) (by decide)
  · cases hg : generate_latex_from_ai req.params req.ai_prompt env.backend with
    | error e =>
      rw [generate_report_gen_error hg]
      exact fun _ => ⟨rfl, rfl⟩
    | ok latex =>
      cases hc : (compile_latex_to_pdf cfg latex rid req.tenant_id env.cenv).result with
      | error e =>
        rw [generate_report_compile_error hg hc]
        exact fun _ => ⟨rfl, rfl⟩
      | ok pr =>
        obtain ⟨texP, pdfP⟩ := pr
        rw [generate_report_ok hg hc]
        exact fun h => absurd (show "ready".toList = "error".toList from h) (by decide)

/-- C6: whenever any pipeline stage fails, the handler catches it, the
persisted record ends in the terminal `error` state with no reference
changes, and the caller receives the single `HTTPException(500)` failure
response whose detail wraps the caught stage exception's message. -/
theorem pipeline_failure_terminal_error (cfg : S3Config) (req : ReportRequest)
    (rid : List Char) (t0 t1 : Nat) (env : GenEnv)
    (h : stageFails req env = true) :
    ∃ e : PipelineError,
      (generate_report cfg req rid t0 t1 env).1
        = .error { status_code := 500,
                   detail := "Error generando reporte: ".toList ++ errMsg e }
      ∧ (generate_report cfg req rid t0 t1 env).2.status = "error".toList
      ∧ (generate_report cfg req rid t0 t1 env).2.storage_key_pdf = none
      ∧ (generate_report cfg req rid t0 t1 env).2.storage_key_tex = none := by
  unfold stageFails at h
  cases hb : env.backend system_prompt (user_prompt req.params req.ai_prompt) with
  | failure m =>
    have hg : generate_latex_from_ai req.params req.ai_prompt env.backend
        = .error (.generationFailure m) := by
      unfold generate_latex_from_ai
      rw [hb]
    refine ⟨.generationFailure m, ?_, ?_, ?_, ?_⟩ <;>
      (rw [generate_report_gen_error hg]; try rfl)
  | success c =>
    rw [hb] at h
    have hg : ∃ L, generate_latex_from_ai req.params req.ai_prompt env.backend
        = .ok L := by
      unfold generate_latex_from_ai
      rw [hb]
      by_cases hch : beginsWith docclassMarker
          (pyLStrip (pyStrip (stripFences (pyStrip c)))) = true
      · exact ⟨pyStrip (stripFences (pyStrip c)), by simp [hch]⟩
      · exact ⟨fallback_template req.params, by simp [hch]⟩
    obtain ⟨L, hg⟩ := hg
    by_cases hpdf : env.cenv.pdf_exists = false
    · have hc : (compile_latex_to_pdf cfg L rid req.tenant_id env.cenv).result
          = .error (.compilationFailure env.cenv.out env.cenv.err) := by
        simp [compile_latex_to_pdf, hpdf]
      refine ⟨.compilationFailure env.cenv.out env.cenv.err, ?_, ?_, ?_, ?_⟩ <;>
        (rw [generate_report_compile_error hg hc]; try rfl)
    · cases htex : env.cenv.texUpErr with
      | some m =>
        have hc : (compile_latex_to_pdf cfg L rid req.tenant_id env.cenv).result
            = .error (.archiveFailure m) := by
          simp [compile_latex_to_pdf, hpdf, htex]
        refine ⟨.archiveFailure m, ?_, ?_, ?_, ?_⟩ <;>
          (rw [generate_report_compile_error hg hc]; try rfl)
      | none =>
        cases hpdfe : env.cenv.pdfUpErr with
        | some m =>
          have hc : (compile_latex_to_pdf cfg L rid req.tenant_id env.cenv).result
              = .error (.archiveFailure m) := by
            simp [compile_latex_to_pdf, hpdf, htex, hpdfe]
          refine ⟨.archiveFailure m, ?_, ?_, ?_, ?_⟩ <;>
            (rw [generate_report_compile_error hg hc]; try rfl)
        | none =>
          exfalso
          have hpdf' : env.cenv.pdf_exists = true := by
            revert hpdf
            cases env.cenv.pdf_exists <;> simp
          rw [hpdf', htex, hpdfe] at h
          simp at h

/-- C6 witness: a request whose backend call fails. -/
theorem pipeline_failure_witness :
    ∃ e : PipelineError,
      (generate_report sampleCfg sampleReq sampleRid 0 1 failEnv).1
        = .error { status_code := 500,
                   detail := "Error generando reporte: ".toList ++ errMsg e }
      ∧ (generate_report sampleCfg sampleReq sampleRid 0 1 failEnv).2.status
          = "error".toList
      ∧ (generate_report sampleCfg sampleReq sampleRid 0 1 failEnv).2.storage_key_pdf
          = none
      ∧ (generate_report sampleCfg sampleReq sampleRid 0 1 failEnv).2.storage_key_tex
          = none :=
  pipeline_failure_terminal_error sampleCfg sampleReq sampleRid 0 1 failEnv rfl

/-- C9: the error-terminal update is exactly the initial record with only
`status` and `updated_at` changed — every other field (`id`, `tenant_id`,
`type`, `period`, `params`, `created_at`, both storage keys) is untouched. -/
theorem error_update_frame (cfg : S3Config) (req : ReportRequest)
    (rid : List Char) (t0 t1 : Nat) (env : GenEnv)
    (h : (generate_report cfg req rid t0 t1 env).2.status = "error".toList) :
    (generate_report cfg req rid t0 t1 env).2
      = { mkInitialReport req rid t0 with
          status := "error".toList,
          updated_at := t1 } := by
  cases hg : generate_latex_from_ai req.params req.ai_prompt env.backend with
  | error e => rw [generate_report_gen_error hg]
  | ok latex =>
    cases hc : (compile_latex_to_pdf cfg latex rid req.tenant_id env.cenv).result with
    | error e => rw [generate_report_compile_error hg hc]
    | ok pr =>
      obtain ⟨texP, pdfP⟩ := pr
      rw [generate_report_ok hg hc] at h
      exact absurd (show "ready".toList = "error".toList from h) (by decide)

/-- C9 witness: the frame condition evaluated on a failed sample request. -/
theorem error_update_frame_witness :
    (generate_report sampleCfg sampleReq sampleRid 0 1 failEnv).2
      = { mkInitialReport sampleReq sampleRid 0 with
          status := "error".toList,
          updated_at := 1 } :=
  error_update_frame sampleCfg sampleReq sampleRid 0 1 failEnv rfl

/-- C10: a request body omitting `ai_prompt` is bound with the fixed default
instruction string, and the whole pipeline behaves identically to the same
request carrying that default explicitly. -/
theorem omitted_ai_prompt_uses_default (tid ty per : List Char) (pa : Params)
    (cfg : S3Config) (rid : List Char) (t0 t1 : Nat) (env : GenEnv) :
    (mkReportRequest tid ty per pa none).ai_prompt = some defaultAiPrompt
    ∧ generate_report cfg (mkReportRequest tid ty per pa none) rid t0 t1 env
      = generate_report cfg
          (mkReportRequest tid ty per pa (some (some defaultAiPrompt))) rid t0 t1 env :=
  ⟨rfl, rfl⟩

/-- C7 (code evidence): after a fully successful pipeline run the persisted
record is `ready` and its `storage_key_pdf` is the `s3://...` storage
locator; `download_report` then builds its `FileResponse` directly on that
locator, which is not the local filesystem path (`output_reports/R1.pdf`)
where the compiled artifact actually lives — so the endpoint cannot stream
the archived artifact's bytes from it. -/
theorem download_serves_s3_locator_not_local_file :
    (generate_report sampleCfg sampleReq sampleRid 0 1 okEnv).2.status = "ready".toList
    ∧ ∃ r : FileResp,
        download_report [(generate_report sampleCfg sampleReq sampleRid 0 1 okEnv).2]
            sampleRid = .ok r
        ∧ beginsWith "s3://".toList r.path = true
        ∧ r.path ≠ localPdfPath sampleRid :=
  ⟨rfl,
   ⟨{ path := "s3://ocr-files-db/pdf/T/R1.pdf".toList,
      filename := "R1.pdf".toList }, rfl, by decide, by decide⟩⟩

/-- C1 witness: the frame part of the invariant applied to a failed sample
run (the error-terminal update left both reference fields untouched). -/
theorem report_status_keys_consistent_witness :
    (generate_report sampleCfg sampleReq sampleRid 0 1 failEnv).2.storage_key_pdf
      = (mkInitialReport sampleReq sampleRid 0).storage_key_pdf
    ∧ (generate_report sampleCfg sampleReq sampleRid 0 1 failEnv).2.storage_key_tex
      = (mkInitialReport sampleReq sampleRid 0).storage_key_tex :=
  (report_status_keys_consistent sampleCfg sampleReq sampleRid 0 1 failEnv).2.2 rfl
